import Mathlib

/-
Verification of the dual-endpoint request/fallback flow of the Chef AI
recipe-and-image gateway (src/app.py).

The program is glue code around two upstream HTTP services.  We embed it
shallowly:

* a JSON value is the `Json` inductive;
* an upstream HTTP service is a function `Json → PostOutcome` from the
  posted JSON request body to the outcome of `requests.post`: either a
  raised transport exception (`PostOutcome.exn`, carrying the string form
  of the exception) or an `HttpResponse`;
* an `HttpResponse` carries the status code, the raw body text, the result
  of parsing the body as JSON (`jsonBody`, modelling `response.json()`:
  `Except.error` is the raised `JSONDecodeError` with its message), and the
  result of decoding the body bytes as an image (`imageDecode`, modelling
  `PIL.Image.open(io.BytesIO(response.content))`: `none` means the decode
  raises);
* PIL canvas construction (`Image.new`, `ImageDraw.Draw`, `draw.text`) is
  modelled by the `Canvas` structure recording size, background colour and
  the list of drawn text items;
* a handler that can let a Python exception escape returns `Except String`
  where `Except.error` is the escaped exception (string form).
-/

/-- A JSON value, as produced by `response.json()` in the source. -/
inductive Json where
  | null : Json
  | bool (b : Bool) : Json
  | num (n : Int) : Json
  | str (s : String) : Json
  | arr (xs : List Json) : Json
  | obj (kvs : List (String × Json)) : Json

/-- The decoded in-memory pixel data of an image produced by
`PIL.Image.open`; opaque bytes for the purposes of this development. -/
def DecodedImage : Type := List Nat

/-- Outcome of one `requests.post` call: the response we received
(`HttpResponse`), with the library views of its body precomputed. -/
structure HttpResponse where
  status : Nat
  text : String
  jsonBody : Except String Json
  imageDecode : Option DecodedImage

/-- What a single `requests.post` call does: it either raises a transport
exception (carrying its string form, as interpolated by Python) or yields
an HTTP response of any status (the `requests` library does not raise on
non-2xx statuses unless `raise_for_status` is called, which the source
never does). -/
inductive PostOutcome where
  | exn (e : String) : PostOutcome
  | resp (r : HttpResponse) : PostOutcome

/-- An upstream HTTP service: maps the posted JSON request body to the
outcome of the POST. -/
def Upstream : Type := Json → PostOutcome

/-- Python `dict.get`: first value bound to `key`, if any (JSON object
keys are unique, so first-match lookup is `dict` lookup). -/
def dictGet : List (String × Json) → String → Option Json
  | [], _ => none
  | (k, v) :: rest, key => if k = key then some v else dictGet rest key

/-- Python type name of the value `response.json()` returned, used in the
`AttributeError` raised by `.get` on a non-dict value. -/
def pyTypeName : Json → String
  | Json.null => "NoneType"
  | Json.bool _ => "bool"
  | Json.num _ => "int"
  | Json.str _ => "str"
  | Json.arr _ => "list"
  | Json.obj _ => "dict"

/-- String form of the `AttributeError` raised by calling `.get` on the
non-dict value `j` (message abbreviated from the Python library text). -/
def pyNoGetMessage (j : Json) : String :=
  pyTypeName j ++ " object has no attribute get"

/-- The JSON body the recipe calls post
(src/app.py lines 47 and 67): the user input as the sole field. -/
def recipeRequestBody (user_input : String) : Json :=
  Json.obj [("user_input", Json.str user_input)]

/-- The JSON body the image call posts (src/app.py line 78):
the user input as the sole `prompt` field. -/
def imageRequestBody (user_input : String) : Json :=
  Json.obj [("prompt", Json.str user_input)]

/-- `GET /health` handler body (src/app.py lines 32-34): the constant
dict; FastAPI serves a plain dict return as an HTTP 200 JSON response,
so the served result is the pair (200, body). -/
def health_check : Nat × Json :=
  (200, Json.obj [("status", Json.str "ok")])

/-- `POST /generate-recipe` handler (src/app.py lines 42-51).  The body
of the handler is not wrapped in any `try`, so an exception raised by
`requests.post` or by `response.json()` escapes the handler; an escaped
exception is `Except.error` with the exception text. -/
def generate_recipe (recipeSvc : Upstream) (user_input : String) :
    Except String Json :=
  match recipeSvc (recipeRequestBody user_input) with
  | PostOutcome.exn e => Except.error e
  | PostOutcome.resp r =>
    if r.status = 200 then
      match r.jsonBody with
      | Except.ok j => Except.ok j
      | Except.error m => Except.error m
    else
      Except.ok (Json.obj
        [("error", Json.str "Failed to generate recipe"),
         ("details", Json.str r.text)])

/-- A PIL canvas: `Image.new` size and background colour, plus the text
items drawn on it by `ImageDraw.Draw(...).text` (position, text, fill). -/
structure Canvas where
  width : Nat
  height : Nat
  background : Nat × Nat × Nat
  texts : List ((Nat × Nat) × String × (Nat × Nat × Nat))

/-- `PIL.Image.new("RGB", size, color)`: a fresh canvas with nothing
drawn on it. -/
def imageNew (size : Nat × Nat) (color : Nat × Nat × Nat) : Canvas :=
  { width := size.1, height := size.2, background := color, texts := [] }

/-- `draw.text(pos, text, fill)` on a canvas: appends one drawn text
item. -/
def drawText (c : Canvas) (pos : Nat × Nat) (t : String)
    (fill : Nat × Nat × Nat) : Canvas :=
  { c with texts := c.texts ++ [(pos, t, fill)] }

/-- `create_placeholder_image` (src/app.py lines 54-58): a 512 by 512
canvas with background RGB (240, 240, 240) and the caption drawn at
(10, 250) in black.  (In the source the parameter defaults to
"No Image"; every call site passes a caption explicitly.) -/
def create_placeholder_image (text : String) : Canvas :=
  drawText (imageNew (512, 512) (240, 240, 240)) (10, 250) text (0, 0, 0)

/-- The image the UI returns: either the upstream bytes decoded by
`PIL.Image.open`, or a synthesized placeholder canvas. -/
inductive UIImage where
  | decoded (d : DecodedImage) : UIImage
  | synthesized (c : Canvas) : UIImage

/-- The recipe block of `gradio_generate_all` (src/app.py lines 63-71):
post the input to the recipe service; on any raised exception produce the
captioned failure string, otherwise `response.json().get("recipe", "No
recipe returned.")`.  The status code is never inspected.  A `.get` on a
non-dict JSON value raises `AttributeError`, which the same `except`
catches.  The resulting value is whatever object `.get` returned (any
JSON value), or one of the two strings. -/
def gradio_recipe_block (recipeSvc : Upstream) (user_input : String) :
    Json :=
  match recipeSvc (recipeRequestBody user_input) with
  | PostOutcome.exn e => Json.str ("Recipe generation failed: " ++ e)
  | PostOutcome.resp r =>
    match r.jsonBody with
    | Except.error m => Json.str ("Recipe generation failed: " ++ m)
    | Except.ok (Json.obj kvs) =>
      match dictGet kvs "recipe" with
      | some v => v
      | none => Json.str "No recipe returned."
    | Except.ok j =>
      Json.str ("Recipe generation failed: " ++ pyNoGetMessage j)

/-- The image block of `gradio_generate_all` (src/app.py lines 74-83):
post the input to the image service and decode the response body with
`PIL.Image.open`; on any raised exception (transport or decode) log and
substitute the placeholder with caption "Image generation failed".  The
status code is never inspected. -/
def gradio_image_block (imageSvc : Upstream) (user_input : String) :
    UIImage :=
  match imageSvc (imageRequestBody user_input) with
  | PostOutcome.exn _ =>
    UIImage.synthesized (create_placeholder_image "Image generation failed")
  | PostOutcome.resp r =>
    match r.imageDecode with
    | some d => UIImage.decoded d
    | none =>
      UIImage.synthesized (create_placeholder_image "Image generation failed")

/-- `gradio_generate_all` (src/app.py lines 61-85): runs the recipe block
and the image block, each in its own `try`, and returns the pair. -/
def gradio_generate_all (recipeSvc imageSvc : Upstream)
    (user_input : String) : Json × UIImage :=
  (gradio_recipe_block recipeSvc user_input,
   gradio_image_block imageSvc user_input)

/-! ## Theorems -/

/-- C9: `GET /health` always returns exactly the JSON object
`("status", "ok")` with HTTP status 200; the handler body is a constant
that consults no upstream service, so the result is independent of the
availability or behavior of either upstream. -/
theorem health_check_static :
    health_check = (200, Json.obj [("status", Json.str "ok")]) := rfl

/-- C5: `POST /generate-recipe` posts the input as the sole `user_input`
field of a JSON body to the recipe endpoint; when the upstream status is
200 and the body parses as JSON, that upstream JSON body is returned
verbatim; when the status is any non-200 value the handler returns
exactly the two-field error object with the fixed label and the raw
upstream response text, without any exception escaping. -/
theorem generate_recipe_mapping (recipeSvc : Upstream) (input : String) :
    recipeRequestBody input = Json.obj [("user_input", Json.str input)] ∧
    (∀ r j, recipeSvc (recipeRequestBody input) = PostOutcome.resp r →
      r.status = 200 → r.jsonBody = Except.ok j →
      generate_recipe recipeSvc input = Except.ok j) ∧
    (∀ r, recipeSvc (recipeRequestBody input) = PostOutcome.resp r →
      r.status ≠ 200 →
      generate_recipe recipeSvc input = Except.ok (Json.obj
        [("error", Json.str "Failed to generate recipe"),
         ("details", Json.str r.text)])) := by
  refine ⟨rfl, ?_, ?_⟩
  · intro r j hr hs hj
    simp [generate_recipe, hr, hs, hj]
  · intro r hr hs
    simp [generate_recipe, hr, hs]

/-- Witness for C5: a stub upstream answering status 200 with body
`("recipe", "Step 1")` makes the handler return that payload verbatim;
the scenario of spec section 8. -/
theorem generate_recipe_mapping_witness :
    generate_recipe
      (fun _ => PostOutcome.resp
        ⟨200, "", Except.ok (Json.obj [("recipe", Json.str "Step 1")]), none⟩)
      "chicken and rice"
    = Except.ok (Json.obj [("recipe", Json.str "Step 1")]) :=
  (generate_recipe_mapping
    (fun _ => PostOutcome.resp
      ⟨200, "", Except.ok (Json.obj [("recipe", Json.str "Step 1")]), none⟩)
    "chicken and rice").2.1
    ⟨200, "", Except.ok (Json.obj [("recipe", Json.str "Step 1")]), none⟩
    (Json.obj [("recipe", Json.str "Step 1")]) rfl rfl rfl

/-- C1, counterexample: the claim says the handler never lets a raw
exception propagate, but the handler body has no exception handling.
With an upstream whose POST raises a transport exception, the handler
result is that escaped exception (`Except.error`), not a well-formed
JSON result. -/
theorem generate_recipe_exception_escapes :
    generate_recipe (fun _ => PostOutcome.exn "ConnectionError") "pasta"
    = Except.error "ConnectionError" := rfl

/-- C1, amended: whenever the upstream POST yields an HTTP response, the
handler returns well-formed JSON — the upstream JSON payload on status
200 with a parsable body, the two-field error shape on any non-200
status.  But a transport exception from the POST, and a JSON-parse
error on a 200 body, each propagate out of the handler unconverted. -/
theorem generate_recipe_error_boundary (recipeSvc : Upstream)
    (input : String) :
    (∀ e, recipeSvc (recipeRequestBody input) = PostOutcome.exn e →
      generate_recipe recipeSvc input = Except.error e) ∧
    (∀ r m, recipeSvc (recipeRequestBody input) = PostOutcome.resp r →
      r.status = 200 → r.jsonBody = Except.error m →
      generate_recipe recipeSvc input = Except.error m) ∧
    (∀ r j, recipeSvc (recipeRequestBody input) = PostOutcome.resp r →
      r.status = 200 → r.jsonBody = Except.ok j →
      generate_recipe recipeSvc input = Except.ok j) ∧
    (∀ r, recipeSvc (recipeRequestBody input) = PostOutcome.resp r →
      r.status ≠ 200 →
      generate_recipe recipeSvc input = Except.ok (Json.obj
        [("error", Json.str "Failed to generate recipe"),
         ("details", Json.str r.text)])) := by
  refine ⟨?_, ?_, ?_, ?_⟩
  · intro e he
    simp [generate_recipe, he]
  · intro r m hr hs hm
    simp [generate_recipe, hr, hs, hm]
  · intro r j hr hs hj
    simp [generate_recipe, hr, hs, hj]
  · intro r hr hs
    simp [generate_recipe, hr, hs]

/-- Witness for the amended C1: a 200 response whose body fails to parse
as JSON makes the handler let the `JSONDecodeError` escape. -/
theorem generate_recipe_error_boundary_witness :
    generate_recipe
      (fun _ => PostOutcome.resp
        ⟨200, "not json", Except.error "Expecting value", none⟩) "pasta"
    = Except.error "Expecting value" :=
  (generate_recipe_error_boundary
    (fun _ => PostOutcome.resp
      ⟨200, "not json", Except.error "Expecting value", none⟩) "pasta").2.1
    ⟨200, "not json", Except.error "Expecting value", none⟩
    "Expecting value" rfl rfl rfl

/-- C6, counterexample: the claim names the default string
"No recipe returned", but the source string (src/app.py line 69) is
"No recipe returned." with a trailing period; and the claim covers every
response that parses as JSON, but a body parsing to a non-object JSON
value (a list) makes `.get` raise `AttributeError`, producing the
captioned failure string, not field extraction or the default. -/
theorem ui_recipe_default_counterexample :
    (gradio_generate_all
      (fun _ => PostOutcome.resp ⟨200, "{}", Except.ok (Json.obj []), none⟩)
      (fun _ => PostOutcome.exn "down") "pasta").1
      = Json.str "No recipe returned." ∧
    "No recipe returned." ≠ "No recipe returned" ∧
    (gradio_generate_all
      (fun _ => PostOutcome.resp ⟨200, "[]", Except.ok (Json.arr []), none⟩)
      (fun _ => PostOutcome.exn "down") "pasta").1
      = Json.str ("Recipe generation failed: "
          ++ "list object has no attribute get") := by
  refine ⟨rfl, by decide, rfl⟩

/-- C6, amended: in UI mode, for every upstream recipe response that
parses as a JSON object, the handler returns the value of its `recipe`
field as the recipe text; when that field is absent it returns the
default string "No recipe returned." (with a trailing period).  A body
parsing to a non-object JSON value instead yields the captioned failure
string (the `AttributeError` from `.get` is caught). -/
theorem ui_recipe_field_extraction (recipeSvc imageSvc : Upstream)
    (input : String) :
    (∀ r kvs v, recipeSvc (recipeRequestBody input) = PostOutcome.resp r →
      r.jsonBody = Except.ok (Json.obj kvs) → dictGet kvs "recipe" = some v →
      (gradio_generate_all recipeSvc imageSvc input).1 = v) ∧
    (∀ r kvs, recipeSvc (recipeRequestBody input) = PostOutcome.resp r →
      r.jsonBody = Except.ok (Json.obj kvs) → dictGet kvs "recipe" = none →
      (gradio_generate_all recipeSvc imageSvc input).1
        = Json.str "No recipe returned.") ∧
    (∀ r j, recipeSvc (recipeRequestBody input) = PostOutcome.resp r →
      r.jsonBody = Except.ok j → (∀ kvs, j ≠ Json.obj kvs) →
      (gradio_generate_all recipeSvc imageSvc input).1
        = Json.str ("Recipe generation failed: " ++ pyNoGetMessage j)) := by
  refine ⟨?_, ?_, ?_⟩
  · intro r kvs v hr hj hget
    simp [gradio_generate_all, gradio_recipe_block, hr, hj, hget]
  · intro r kvs hr hj hget
    simp [gradio_generate_all, gradio_recipe_block, hr, hj, hget]
  · intro r j hr hj hobj
    cases j with
    | null => simp [gradio_generate_all, gradio_recipe_block, hr, hj]
    | bool b => simp [gradio_generate_all, gradio_recipe_block, hr, hj]
    | num n => simp [gradio_generate_all, gradio_recipe_block, hr, hj]
    | str s => simp [gradio_generate_all, gradio_recipe_block, hr, hj]
    | arr xs => simp [gradio_generate_all, gradio_recipe_block, hr, hj]
    | obj kvs => exact absurd rfl (hobj kvs)

/-- Witness for the amended C6: a 200 response with body
`("recipe", "Bake it")` makes the UI recipe text that field value. -/
theorem ui_recipe_field_extraction_witness :
    (gradio_generate_all
      (fun _ => PostOutcome.resp
        ⟨200, "", Except.ok (Json.obj [("recipe", Json.str "Bake it")]), none⟩)
      (fun _ => PostOutcome.exn "down") "pasta").1 = Json.str "Bake it" :=
  (ui_recipe_field_extraction
    (fun _ => PostOutcome.resp
      ⟨200, "", Except.ok (Json.obj [("recipe", Json.str "Bake it")]), none⟩)
    (fun _ => PostOutcome.exn "down") "pasta").1
    ⟨200, "", Except.ok (Json.obj [("recipe", Json.str "Bake it")]), none⟩
    [("recipe", Json.str "Bake it")] (Json.str "Bake it") rfl rfl rfl

/-- C7, counterexample: the claim says a non-2xx HTTP status results in a
captioned failure string, but the UI recipe block never inspects the
status.  A status-500 response whose body is JSON with a `recipe` field
is treated as success: the UI returns that field value, which is not the
captioned failure string. -/
theorem ui_recipe_status_treated_as_success :
    (gradio_generate_all
      (fun _ => PostOutcome.resp
        ⟨500, "", Except.ok (Json.obj [("recipe", Json.str "Leaked")]), none⟩)
      (fun _ => PostOutcome.exn "down") "pasta").1 = Json.str "Leaked" ∧
    ("Recipe generation failed: ".isPrefixOf "Leaked") = false := by
  refine ⟨rfl, by decide⟩

/-- C7, amended: in UI mode, a connection error (an exception raised by
the upstream POST) is converted into the human-readable captioned failure
string rather than propagating.  The HTTP status of the recipe response
is never inspected, so a non-2xx status is not itself treated as a
failure: its body is processed exactly as on success, and a failure
string results only when that processing raises (a JSON-parse error, or
`.get` on a non-object body). -/
theorem ui_recipe_failure_caption (recipeSvc imageSvc : Upstream)
    (input : String) :
    (∀ e, recipeSvc (recipeRequestBody input) = PostOutcome.exn e →
      (gradio_generate_all recipeSvc imageSvc input).1
        = Json.str ("Recipe generation failed: " ++ e)) ∧
    (∀ r m, recipeSvc (recipeRequestBody input) = PostOutcome.resp r →
      r.jsonBody = Except.error m →
      (gradio_generate_all recipeSvc imageSvc input).1
        = Json.str ("Recipe generation failed: " ++ m)) ∧
    (∀ r kvs v, recipeSvc (recipeRequestBody input) = PostOutcome.resp r →
      r.jsonBody = Except.ok (Json.obj kvs) → dictGet kvs "recipe" = some v →
      (gradio_generate_all recipeSvc imageSvc input).1 = v) := by
  refine ⟨?_, ?_, ?_⟩
  · intro e he
    simp [gradio_generate_all, gradio_recipe_block, he]
  · intro r m hr hm
    simp [gradio_generate_all, gradio_recipe_block, hr, hm]
  · intro r kvs v hr hj hget
    simp [gradio_generate_all, gradio_recipe_block, hr, hj, hget]

/-- Witness for the amended C7: a connection error from the recipe POST
yields the captioned failure string as the UI recipe text. -/
theorem ui_recipe_failure_caption_witness :
    (gradio_generate_all (fun _ => PostOutcome.exn "ConnectionError")
      (fun _ => PostOutcome.exn "down") "pasta").1
    = Json.str ("Recipe generation failed: " ++ "ConnectionError") :=
  (ui_recipe_failure_caption (fun _ => PostOutcome.exn "ConnectionError")
    (fun _ => PostOutcome.exn "down") "pasta").1 "ConnectionError" rfl

/-- C2: for every input and every behavior of the image upstream, the UI
image handler yields a valid image: the second element of the composition
result is either the successfully decoded upstream image or the
synthesized placeholder with caption "Image generation failed" — never
absent.  (The block is total: the Lean embedding of the `try` body has a
result in every case, modelling that no exception escapes it.) -/
theorem gradio_image_never_absent (recipeSvc imageSvc : Upstream)
    (input : String) :
    (∃ d, (gradio_generate_all recipeSvc imageSvc input).2
        = UIImage.decoded d) ∨
    (gradio_generate_all recipeSvc imageSvc input).2
      = UIImage.synthesized (create_placeholder_image
          "Image generation failed") := by
  unfold gradio_generate_all gradio_image_block
  cases h : imageSvc (imageRequestBody input) with
  | exn e => right; rfl
  | resp r =>
    cases hd : r.imageDecode with
    | none => right; simp [hd]
    | some d => left; exact ⟨d, by simp [hd]⟩

/-- C3: the recipe half and the image half of the UI composition are
independent.  For any two behaviors of the recipe upstream the image
result is identical, and for any two behaviors of the image upstream the
recipe text is identical; both halves are always computed (each block is
total even when the other upstream raises). -/
theorem gradio_halves_independent
    (recipeSvc recipeSvc2 imageSvc imageSvc2 : Upstream) (input : String) :
    (gradio_generate_all recipeSvc imageSvc input).2
      = (gradio_generate_all recipeSvc2 imageSvc input).2 ∧
    (gradio_generate_all recipeSvc imageSvc input).1
      = (gradio_generate_all recipeSvc imageSvc2 input).1 :=
  ⟨rfl, rfl⟩

/-- C4: for every caption string the placeholder routine returns a canvas
of exactly 512 by 512 pixels with background RGB (240, 240, 240) and the
caption drawn in black (0, 0, 0) at the fixed position (10, 250); and
when the UI image call fails — whether the POST raises, or the response
body (of any status, any text, any JSON view) fails to decode as an
image — the substituted placeholder carries exactly the caption
"Image generation failed". -/
theorem create_placeholder_image_spec (caption : String)
    (recipeSvc : Upstream) (input e : String) (st : Nat) (tx : String)
    (jb : Except String Json) :
    create_placeholder_image caption
      = { width := 512, height := 512, background := (240, 240, 240),
          texts := [((10, 250), caption, (0, 0, 0))] } ∧
    (gradio_generate_all recipeSvc (fun _ => PostOutcome.exn e) input).2
      = UIImage.synthesized (create_placeholder_image
          "Image generation failed") ∧
    (gradio_generate_all recipeSvc
      (fun _ => PostOutcome.resp ⟨st, tx, jb, none⟩) input).2
      = UIImage.synthesized (create_placeholder_image
          "Image generation failed") :=
  ⟨rfl, rfl, rfl⟩

/-- C8: with the upstream responses held fixed (the services are pure
functions of the posted body), both the API handler and the UI
composition are deterministic: a sequence of any number of repeated
identical requests yields the same response each time as a single run —
no hidden state accumulates between requests. -/
theorem handlers_idempotent (recipeSvc imageSvc : Upstream)
    (input : String) (n : Nat) :
    (List.replicate n input).map (generate_recipe recipeSvc)
      = List.replicate n (generate_recipe recipeSvc input) ∧
    (List.replicate n input).map
        (fun s => gradio_generate_all recipeSvc imageSvc s)
      = List.replicate n (gradio_generate_all recipeSvc imageSvc input) := by
  constructor
  · exact List.map_replicate ..
  · exact List.map_replicate ..

/-- C10: the UI image block never inspects the HTTP status of the image
response: for a response of any status whose body decodes as an image,
the decoded image is returned (a non-200 response with valid image bytes
is not treated as a failure); the placeholder is substituted exactly when
the POST raises or the decode fails. -/
theorem image_status_never_inspected (recipeSvc imageSvc : Upstream)
    (input : String) :
    (∀ r d, imageSvc (imageRequestBody input) = PostOutcome.resp r →
      r.imageDecode = some d →
      (gradio_generate_all recipeSvc imageSvc input).2 = UIImage.decoded d) ∧
    (∀ r, imageSvc (imageRequestBody input) = PostOutcome.resp r →
      r.imageDecode = none →
      (gradio_generate_all recipeSvc imageSvc input).2
        = UIImage.synthesized (create_placeholder_image
            "Image generation failed")) ∧
    (∀ e, imageSvc (imageRequestBody input) = PostOutcome.exn e →
      (gradio_generate_all recipeSvc imageSvc input).2
        = UIImage.synthesized (create_placeholder_image
            "Image generation failed")) := by
  refine ⟨?_, ?_, ?_⟩
  · intro r d hr hd
    simp [gradio_generate_all, gradio_image_block, hr, hd]
  · intro r hr hd
    simp [gradio_generate_all, gradio_image_block, hr, hd]
  · intro e he
    simp [gradio_generate_all, gradio_image_block, he]

/-- Witness for C10: a status-500 image response whose body decodes as a
valid image is returned as that decoded image, not as the placeholder. -/
theorem image_status_never_inspected_witness :
    (gradio_generate_all (fun _ => PostOutcome.exn "down")
      (fun _ => PostOutcome.resp
        ⟨500, "err", Except.error "not json", some [1, 2, 3]⟩)
      "burger").2 = UIImage.decoded [1, 2, 3] :=
  (image_status_never_inspected (fun _ => PostOutcome.exn "down")
    (fun _ => PostOutcome.resp
      ⟨500, "err", Except.error "not json", some [1, 2, 3]⟩) "burger").1
    ⟨500, "err", Except.error "not json", some [1, 2, 3]⟩ [1, 2, 3] rfl rfl
